import Mathlib

/-!
# Verification of the Event Scheduler store (`src/app.py`)

Shallow embedding of the event-scheduler service: the time-value parser
(`datetime.fromisoformat`, modelled on the CPython 3.7–3.10 documented
grammar `YYYY-MM-DD[*HH[:MM[:SS[.fff[fff]]]][+HH:MM[:SS[.ffffff]]]]`),
the validator `validate_event_data`, the store operations
`create_event` / `list_events` / `update_event` / `delete_event`, and the
persistence adapter `load_events` / `save_events`.

Modelling choices:
* Python `datetime` objects are the `DateTime` structure below; naive
  datetimes have `tzOffset = none`, aware ones carry the UTC offset in
  microseconds.  Python comparison of two naive (or two aware) datetimes
  is comparison of their timeline keys; comparing a naive with an aware
  datetime raises `TypeError`, modelled by `dtGe` returning `none`.
* `uuid.uuid4()` is nondeterministic; freshly generated ids are passed in
  as explicit arguments (`newId`, `fresh`).
* `save_events` can fail with I/O or serialization errors; the store
  operations take a `saveOk : Bool` flag selecting the success/failure
  outcome of the save performed after the in-memory mutation.
* The persisted file is modelled at the JSON-value level (`FileState`):
  `json.dump` followed by `json.load` is the identity on the array of
  records, so the file content is modelled as the record list itself.
* Python `str.strip()` is modelled by `pyStrip` (drop leading and
  trailing ASCII whitespace; the inputs of interest are ASCII).
* Python `sorted(events, key=...)` is a stable sort by the key; any
  stable sort by the same key produces the same list, so it is embedded
  as the stable insertion sort `sortByStart`.
* Flask error handlers (`bad_request_error`, `not_found_error`,
  `internal_server_error`) produce the JSON bodies embedded in
  `badRequest`, `notFound`, `serverError`; an `InternalServerError`
  raised anywhere inside a handler reaches the 500 handler, whose body
  is the fixed generic message (no detail from the exception leaks).
-/

/-- A Python `datetime` value: calendar fields plus an optional UTC
offset (in microseconds); `tzOffset = none` is a naive datetime. -/
structure DateTime where
  year : Nat
  month : Nat
  day : Nat
  hour : Nat
  minute : Nat
  second : Nat
  microsecond : Nat
  tzOffset : Option Int
deriving DecidableEq, Repr

/-- Gregorian leap-year rule (as used by Python `datetime.date`). -/
def isLeap (y : Nat) : Bool :=
  y % 4 == 0 && (y % 100 != 0 || y % 400 == 0)

/-- Number of days of month `m` in year `y` (Python `calendar` rule). -/
def daysInMonth (y m : Nat) : Nat :=
  if m = 2 then (if isLeap y then 29 else 28)
  else if m = 4 ∨ m = 6 ∨ m = 9 ∨ m = 11 then 30
  else 31

/-- Day number of a civil date (valid for `y ≥ 1`, monotone in the date;
standard days-from-civil computation, up to a constant origin shift). -/
def daysFromCivil (y m d : Nat) : Nat :=
  let y' := if m ≤ 2 then y - 1 else y
  let era := y' / 400
  let yoe := y' % 400
  let mp := if 2 < m then m - 3 else m + 9
  let doy := (153 * mp + 2) / 5 + d - 1
  let doe := yoe * 365 + yoe / 4 - yoe / 100 + doy
  era * 146097 + doe

/-- Lexicographic timeline key of the naive part of a datetime, in
microseconds. -/
def DateTime.naiveKey (t : DateTime) : Nat :=
  daysFromCivil t.year t.month t.day * 86400000000 +
    ((t.hour * 60 + t.minute) * 60 + t.second) * 1000000 + t.microsecond

/-- Timeline position used for Python datetime comparison: naive key for
naive datetimes, UTC-adjusted key for aware ones. -/
def DateTime.utcKey (t : DateTime) : Int :=
  (t.naiveKey : Int) - t.tzOffset.getD 0

/-- Python `a >= b` on datetimes: defined when both are naive or both
aware (`some`), raises `TypeError` when mixed (`none`). -/
def dtGe (a b : DateTime) : Option Bool :=
  if a.tzOffset.isSome = b.tzOffset.isSome then
    some (decide (b.utcKey ≤ a.utcKey))
  else none

/-- Value of an ASCII digit character, `none` on non-digits
(Python `int()` on a single character of the timestamp). -/
def digitVal (c : Char) : Option Nat :=
  if c.isDigit then some (c.toNat - 48) else none

/-- Read exactly two digits from the front of the character list. -/
def read2 : List Char → Option (Nat × List Char)
  | a :: b :: rest =>
    match digitVal a, digitVal b with
    | some x, some y => some (x * 10 + y, rest)
    | _, _ => none
  | _ => none

/-- Date part of `fromisoformat`: exactly `YYYY-MM-DD` at the front. -/
def parseIsoDate : List Char → Option (Nat × Nat × Nat × List Char)
  | y1 :: y2 :: y3 :: y4 :: '-' :: m1 :: m2 :: '-' :: d1 :: d2 :: rest =>
    match digitVal y1, digitVal y2, digitVal y3, digitVal y4,
          digitVal m1, digitVal m2, digitVal d1, digitVal d2 with
    | some a, some b, some c, some d, some e, some f, some g, some h =>
      some (((a * 10 + b) * 10 + c) * 10 + d, e * 10 + f, g * 10 + h, rest)
    | _, _, _, _, _, _, _, _ => none
  | _ => none

/-- Numeric value of a digit string (most significant first). -/
def digitsToNat (ds : List Char) : Nat :=
  ds.foldl (fun a c => a * 10 + (c.toNat - 48)) 0

/-- Trailing timezone part of `fromisoformat`: empty (naive, `some none`)
or exactly `±HH:MM`, `±HH:MM:SS` or `±HH:MM:SS.ffffff` (offset returned
in microseconds).  Any other trailing text is a parse error (`none`). -/
def parseTz : List Char → Option (Option Int)
  | [] => some none
  | c :: rest =>
    if c = '+' ∨ c = '-' then
      match read2 rest with
      | none => none
      | some (hh, r1) =>
        if 23 < hh then none else
        match r1 with
        | ':' :: r2 =>
          match read2 r2 with
          | none => none
          | some (mm, r3) =>
            if 59 < mm then none else
            let sign : Int := if c = '-' then -1 else 1
            match r3 with
            | [] => some (some (sign * ((hh * 3600 + mm * 60 : Nat) * 1000000 : Nat)))
            | ':' :: r4 =>
              match read2 r4 with
              | none => none
              | some (ss, r5) =>
                if 59 < ss then none else
                match r5 with
                | [] => some (some (sign * ((hh * 3600 + mm * 60 + ss : Nat) * 1000000 : Nat)))
                | '.' :: r6 =>
                  let ds := r6.takeWhile Char.isDigit
                  if ds.length = 6 ∧ r6.drop 6 = [] then
                    some (some (sign * (((hh * 3600 + mm * 60 + ss : Nat) * 1000000 + digitsToNat ds : Nat))))
                  else none
                | _ => none
            | _ => none
        | _ => none
    else none

/-- Parsed time-of-day components plus optional offset. -/
structure TimeParts where
  hour : Nat
  minute : Nat
  second : Nat
  microsecond : Nat
  tz : Option Int
deriving DecidableEq, Repr

/-- Time part of `fromisoformat`: `HH[:MM[:SS[.fff[fff]]]]` followed by
the optional timezone suffix.  Components are bounds-checked exactly as
the `datetime` constructor does. -/
def parseIsoTime (cs : List Char) : Option TimeParts :=
  match read2 cs with
  | none => none
  | some (h, r1) =>
    if 23 < h then none else
    match r1 with
    | ':' :: r2 =>
      match read2 r2 with
      | none => none
      | some (mi, r3) =>
        if 59 < mi then none else
        match r3 with
        | ':' :: r4 =>
          match read2 r4 with
          | none => none
          | some (s, r5) =>
            if 59 < s then none else
            match r5 with
            | '.' :: r6 =>
              let ds := r6.takeWhile Char.isDigit
              let r7 := r6.drop ds.length
              if ds.length = 3 then
                match parseTz r7 with
                | some off => some ⟨h, mi, s, digitsToNat ds * 1000, off⟩
                | none => none
              else if ds.length = 6 then
                match parseTz r7 with
                | some off => some ⟨h, mi, s, digitsToNat ds, off⟩
                | none => none
              else none
            | r5' =>
              match parseTz r5' with
              | some off => some ⟨h, mi, s, 0, off⟩
              | none => none
        | r3' =>
          match parseTz r3' with
          | some off => some ⟨h, mi, 0, 0, off⟩
          | none => none
    | r1' =>
      match parseTz r1' with
      | some off => some ⟨h, 0, 0, 0, off⟩
      | none => none

/-- `datetime.fromisoformat` (CPython 3.7–3.10 documented grammar
`YYYY-MM-DD[*HH[:MM[:SS[.fff[fff]]]][+HH:MM[:SS[.ffffff]]]]`, where `*`
is any single separator character): `none` models `ValueError`. -/
def fromisoformat (str : String) : Option DateTime :=
  match parseIsoDate str.data with
  | none => none
  | some (y, mo, d, rest) =>
    if y < 1 ∨ mo < 1 ∨ 12 < mo ∨ d < 1 ∨ daysInMonth y mo < d then none
    else
      match rest with
      | [] => some ⟨y, mo, d, 0, 0, 0, 0, none⟩
      | _ :: tcs =>
        match parseIsoTime tcs with
        | none => none
        | some tp => some ⟨y, mo, d, tp.hour, tp.minute, tp.second, tp.microsecond, tp.tz⟩

/-- Character of a single decimal digit. -/
def digitChar (n : Nat) : Char := Char.ofNat (48 + n)

/-- Two-digit zero-padded rendering (Python `%02d`, for values ≤ 99). -/
def pad2 (n : Nat) : List Char := [digitChar (n / 10), digitChar (n % 10)]

/-- Four-digit zero-padded rendering (Python `%04d`, for values ≤ 9999). -/
def pad4 (n : Nat) : List Char :=
  [digitChar (n / 1000), digitChar (n / 100 % 10), digitChar (n / 10 % 10), digitChar (n % 10)]

/-- Six-digit zero-padded rendering (Python `%06d`, for values ≤ 999999). -/
def pad6 (n : Nat) : List Char :=
  [digitChar (n / 100000), digitChar (n / 10000 % 10), digitChar (n / 1000 % 10),
   digitChar (n / 100 % 10), digitChar (n / 10 % 10), digitChar (n % 10)]

/-- Offset suffix of `datetime.isoformat` for aware values
(`±HH:MM[:SS[.ffffff]]`, components rendered only when nonzero). -/
def offsetChars : Option Int → List Char
  | none => []
  | some off =>
    let sign := if off < 0 then '-' else '+'
    let a := off.natAbs
    let secs := a / 1000000
    let us := a % 1000000
    let hh := secs / 3600
    let mm := secs / 60 % 60
    let ss := secs % 60
    sign :: pad2 hh ++ ':' :: pad2 mm ++
      (if ss = 0 ∧ us = 0 then [] else
        ':' :: pad2 ss ++ (if us = 0 then [] else '.' :: pad6 us))

/-- Characters of `datetime.isoformat()`: `YYYY-MM-DDTHH:MM:SS`, the
`.ffffff` fraction only when the microsecond field is nonzero, then the
offset suffix for aware values. -/
def isoChars (t : DateTime) : List Char :=
  pad4 t.year ++ '-' :: pad2 t.month ++ '-' :: pad2 t.day ++
    'T' :: pad2 t.hour ++ ':' :: pad2 t.minute ++ ':' :: pad2 t.second ++
    (if t.microsecond = 0 then [] else '.' :: pad6 t.microsecond) ++
    offsetChars t.tzOffset

/-- `datetime.isoformat()` as a string. -/
def isoformatDT (t : DateTime) : String := ⟨isoChars t⟩

/-- Whitespace for Python `str.strip()` (the ASCII part: space, tab,
newline, carriage return, vertical tab, form feed). -/
def pyIsSpace (c : Char) : Bool :=
  c = ' ' || c = '\t' || c = '\n' || c = '\r' || c = '\x0b' || c = '\x0c'

/-- Python `str.strip()`: drop leading and trailing whitespace. -/
def pyStrip (s : String) : String :=
  ⟨((s.data.dropWhile pyIsSpace).reverse.dropWhile pyIsSpace).reverse⟩

/-- A JSON value as far as the validator distinguishes them: a string,
JSON `null`, or any other (non-string, non-null) value. -/
inductive JVal
  | str (s : String)
  | null
  | other
deriving DecidableEq, Repr

/-- The decoded JSON request body: the four schema fields (absent = the
key is not in the dict, `some .null` = the key maps to JSON `null`),
plus whether any non-schema key is present (which makes the dict
non-empty for Python truthiness). -/
structure Payload where
  title : Option JVal
  description : Option JVal
  start_time : Option JVal
  end_time : Option JVal
  extra : Bool
deriving DecidableEq, Repr

/-- Python `not data` on the decoded dict: true exactly when it has no
keys at all. -/
def payloadFalsy (d : Payload) : Bool :=
  d.title.isNone && d.description.isNone && d.start_time.isNone &&
    d.end_time.isNone && !d.extra

/-- Python `data.get(k)`: `None` both when the key is absent and when
its value is JSON `null`. -/
def pyGet : Option JVal → Option JVal
  | some JVal.null => none
  | some v => some v
  | none => none

/-- The tuple returned by `validate_event_data`:
`(len(errors)==0, errors, parsed_start_time, parsed_end_time)`. -/
structure VResult where
  valid : Bool
  errors : List String
  parsed_start : Option DateTime
  parsed_end : Option DateTime
deriving DecidableEq, Repr

/-- Missing-required-field errors of create mode, in the source's field
order (a key present with JSON `null` counts as present). -/
def requiredErrs (data : Payload) : List String :=
  (if data.title.isNone then ["Missing required field: 'title'"] else []) ++
    (if data.description.isNone then ["Missing required field: 'description'"] else []) ++
    (if data.start_time.isNone then ["Missing required field: 'start_time'"] else []) ++
    (if data.end_time.isNone then ["Missing required field: 'end_time'"] else [])

/-- Title check: present values must be strings non-empty after strip. -/
def titleErrs : Option JVal → List String
  | none => []
  | some (JVal.str t) => if pyStrip t = "" then ["Title must be a non-empty string."] else []
  | some _ => ["Title must be a non-empty string."]

/-- Description check: present values must be strings (empty allowed). -/
def descErrs : Option JVal → List String
  | none => []
  | some (JVal.str _) => []
  | some _ => ["Description must be a string."]

/-- Handling of one time field (already looked up with `data.get`, so
`none` covers both an absent key and a JSON `null` value): errors
produced and parsed value.  The parsed value is `none` both when the
field was not supplied and when it failed to parse. -/
def timeFieldStep (v : Option JVal) (msgType msgFormat : String) :
    List String × Option DateTime :=
  match v with
  | none => ([], none)
  | some (JVal.str s) =>
    match fromisoformat s with
    | some t => ([], some t)
    | none => ([msgFormat], none)
  | some _ => ([msgType], none)

/-- `validate_event_data(data, is_update)` from `src/app.py`: missing
required fields (create mode only), title/description type checks, and
parsing of supplied time strings, accumulating error messages in the
source's append order. -/
def validate_event_data (data : Payload) (is_update : Bool) : VResult :=
  let startStep := timeFieldStep (pyGet data.start_time)
    ("start_time must be a string.")
    ("Invalid start_time format. Use ISO 8601 (YYYY-MM-DDTHH:MM:SS).")
  let endStep := timeFieldStep (pyGet data.end_time)
    ("end_time must be a string.")
    ("Invalid end_time format. Use ISO 8601 (YYYY-MM-DDTHH:MM:SS).")
  let errs := (if is_update then [] else requiredErrs data) ++
    titleErrs data.title ++ descErrs data.description ++ startStep.1 ++ endStep.1
  ⟨errs.isEmpty, errs, startStep.2, endStep.2⟩

/-- A stored event: the in-memory dict built by `create_event`. -/
structure Event where
  id : String
  title : String
  description : String
  start_time : DateTime
  end_time : DateTime
deriving DecidableEq, Repr

/-- The wire form of an event (`start_time`/`end_time` rendered with
`isoformat()`). -/
structure EventWire where
  id : String
  title : String
  description : String
  start_time : String
  end_time : String
deriving DecidableEq, Repr

/-- Wire rendering of a stored event. -/
def eventWire (e : Event) : EventWire :=
  ⟨e.id, e.title, e.description, isoformatDT e.start_time, isoformatDT e.end_time⟩

/-- An HTTP response of the service: status code plus the JSON body
fields actually produced (`error`, `message`, `event`, `events`). -/
structure Response where
  status : Nat
  error : Option String
  message : Option String
  event : Option EventWire
  events : Option (List EventWire)
deriving DecidableEq, Repr

/-- Body produced by the 400 handler / the `BadRequest` catch clauses. -/
def badRequest (m : String) : Response := ⟨400, some ("Bad Request"), some m, none, none⟩

/-- Body produced by the 404 handler / the `NotFound` catch clauses. -/
def notFound (m : String) : Response := ⟨404, some ("Not Found"), some m, none, none⟩

/-- Body produced by the 500 handler: the fixed generic message,
independent of the exception's own description. -/
def serverError : Response :=
  ⟨500, some ("Internal Server Error"), some ("An unexpected error occurred on the server."), none, none⟩

/-- `create_event` from `src/app.py`.  `data = none` models a request
body that is not JSON; `newId` is the generated `uuid4` string;
`saveOk` is the outcome of the `save_events` call.  Returns the new
in-memory collection and the response. -/
def create_event (data : Option Payload) (newId : String) (saveOk : Bool)
    (events : List Event) : List Event × Response :=
  match data with
  | none => (events, badRequest ("Request body must be JSON."))
  | some d =>
    if payloadFalsy d then (events, badRequest ("Request body must be JSON."))
    else
      let v := validate_event_data d false
      if !v.valid then (events, badRequest (String.intercalate (", ") v.errors))
      else
        match v.parsed_start, v.parsed_end with
        | some ps, some pe =>
          match dtGe ps pe with
          | none => (events, serverError)
          | some true => (events, badRequest ("Start time must be strictly before end time."))
          | some false =>
            match d.title, d.description with
            | some (JVal.str t), some (JVal.str ds) =>
              let ev : Event := ⟨newId, pyStrip t, pyStrip ds, ps, pe⟩
              (events ++ [ev],
                if saveOk then ⟨201, none, some ("Event created successfully"), some (eventWire ev), none⟩
                else serverError)
            | _, _ => (events, serverError)
        | _, _ => (events, serverError)

/-- The in-place merge performed by `update_event` on the found event
(lines 264–274 of `src/app.py`), together with a success flag: `false`
models the `AttributeError` raised by `.strip()` on a non-string value
(unreachable when validation succeeded), with the event as mutated so
far. -/
def applyUpdates (e : Event) (d : Payload) (v : VResult) : Event × Bool :=
  let step1 : Event × Bool :=
    match d.title with
    | none => (e, true)
    | some (JVal.str t) => ({ e with title := pyStrip t }, true)
    | some _ => (e, false)
  if !step1.2 then step1
  else
    let e1 := step1.1
    let step2 : Event × Bool :=
      match d.description with
      | none => (e1, true)
      | some (JVal.str s) => ({ e1 with description := pyStrip s }, true)
      | some _ => (e1, false)
    if !step2.2 then step2
    else
      let e2 := step2.1
      let e3 := match v.parsed_start with
        | some ps => { e2 with start_time := ps }
        | none => e2
      let e4 := match v.parsed_end with
        | some pe => { e3 with end_time := pe }
        | none => e3
      (e4, true)

/-- Body of `update_event` once the event has been found: mutate in
place, then re-check the ordering of the merged times.  The returned
event is the one left in the collection — on the ordering failure it is
the already-mutated event (no rollback in the source). -/
def updateFound (d : Payload) (v : VResult) (saveOk : Bool) (e : Event) : Event × Response :=
  let (e', ok) := applyUpdates e d v
  if !ok then (e', serverError)
  else
    match dtGe e'.start_time e'.end_time with
    | none => (e', serverError)
    | some true => (e', badRequest ("Updated start time must be strictly before updated end time."))
    | some false =>
      (e', if saveOk then ⟨200, none, some ("Event updated successfully"), some (eventWire e'), none⟩
        else serverError)

/-- Linear scan of `update_event`: the first event whose `id` matches is
mutated; later events are untouched. -/
def updateScan (event_id : String) (d : Payload) (v : VResult) (saveOk : Bool) :
    List Event → List Event × Response
  | [] => ([], notFound ("Event with ID '" ++ event_id ++ "' not found."))
  | e :: rest =>
    if e.id = event_id then
      let (e', r) := updateFound d v saveOk e
      (e' :: rest, r)
    else
      let (rest', r) := updateScan event_id d v saveOk rest
      (e :: rest', r)

/-- `update_event` from `src/app.py`: body check, validation, lookup,
in-place merge, ordering re-check, save. -/
def update_event (event_id : String) (data : Option Payload) (saveOk : Bool)
    (events : List Event) : List Event × Response :=
  match data with
  | none => (events, badRequest ("Request body must be JSON."))
  | some d =>
    if payloadFalsy d then (events, badRequest ("Request body must be JSON."))
    else
      let v := validate_event_data d true
      if !v.valid then (events, badRequest (String.intercalate (", ") v.errors))
      else updateScan event_id d v saveOk events

/-- `delete_event` from `src/app.py`: remove the first event whose `id`
matches, then save. -/
def delete_event (event_id : String) (saveOk : Bool) :
    List Event → List Event × Response
  | [] => ([], notFound ("Event with ID '" ++ event_id ++ "' not found."))
  | e :: rest =>
    if e.id = event_id then
      (rest,
        if saveOk then
          ⟨200, none,
            some ("Event '" ++ e.title ++ "' with ID '" ++ event_id ++ "' deleted successfully"),
            none, none⟩
        else serverError)
    else
      let (rest', r) := delete_event event_id saveOk rest
      (e :: rest', r)

/-- Sort key of `list_events`: the timeline position of `start_time`. -/
def sortKey (e : Event) : Int := e.start_time.utcKey

/-- Stable insertion of an event into a list sorted by `sortKey`: the
new element goes before the first element with a key ≥ its own. -/
def insertByStart (x : Event) : List Event → List Event
  | [] => [x]
  | y :: ys => if sortKey x ≤ sortKey y then x :: y :: ys else y :: insertByStart x ys

/-- Stable sort by `sortKey`; Python `sorted(events, key=...)` is a
stable sort by the same key, and all stable sorts by one key agree. -/
def sortByStart : List Event → List Event
  | [] => []
  | x :: xs => insertByStart x (sortByStart xs)

/-- Whether all start times have the same awareness (all naive or all
aware): when violated and the list has two or more elements, Python's
`sorted` raises `TypeError` while comparing a naive with an aware
datetime. -/
def sameAwareness : List Event → Bool
  | [] => true
  | e :: rest => rest.all (fun x => x.start_time.tzOffset.isSome == e.start_time.tzOffset.isSome)

/-- `list_events` from `src/app.py`: sort by `start_time`, render to the
wire form, never mutate the collection. -/
def list_events (events : List Event) : List Event × Response :=
  if sameAwareness events then
    (events, ⟨200, none, none, none, some ((sortByStart events).map eventWire)⟩)
  else (events, serverError)

/-- A time field of a persisted/loaded record: a parsed datetime or a
raw (unparsed) string. -/
inductive TimeVal
  | dt (t : DateTime)
  | str (s : String)
deriving DecidableEq, Repr

/-- A record of the persisted JSON array (`id` may be absent in legacy
data). -/
structure PRecord where
  id : Option String
  title : String
  description : String
  start_time : TimeVal
  end_time : TimeVal
deriving DecidableEq, Repr

/-- Per-field serialization of `save_events`: datetimes are rendered
with `isoformat()`, anything else is written as is. -/
def serializeTV : TimeVal → TimeVal
  | TimeVal.dt t => TimeVal.str (isoformatDT t)
  | TimeVal.str s => TimeVal.str s

/-- Per-record serialization of `save_events` (the record is copied, so
the in-memory collection is untouched). -/
def serializeRecord (r : PRecord) : PRecord :=
  { r with start_time := serializeTV r.start_time, end_time := serializeTV r.end_time }

/-- `save_events` from `src/app.py`, at the JSON-value level: the array
written to the file. -/
def save_events (records : List PRecord) : List PRecord :=
  records.map serializeRecord

/-- The record view of a stored event (what `save_events` receives from
the store operations). -/
def Event.toRecord (e : Event) : PRecord :=
  ⟨some e.id, e.title, e.description, TimeVal.dt e.start_time, TimeVal.dt e.end_time⟩

/-- Time conversion of one loaded record (lines 31–37 of `src/app.py`):
`start_time` is converted first; the first parse failure raises
`ValueError`, which is caught and leaves the failing field and every
later field with their raw values.  A non-string field raises
`TypeError`, likewise caught. -/
def convertRecordTimes (r : PRecord) : PRecord :=
  match r.start_time with
  | TimeVal.str s1 =>
    match fromisoformat s1 with
    | none => r
    | some t1 =>
      match r.end_time with
      | TimeVal.str s2 =>
        match fromisoformat s2 with
        | none => { r with start_time := TimeVal.dt t1 }
        | some t2 => { r with start_time := TimeVal.dt t1, end_time := TimeVal.dt t2 }
      | TimeVal.dt _ => { r with start_time := TimeVal.dt t1 }
  | TimeVal.dt _ => r

/-- The per-record loop of `load_events`: assign a fresh id when absent
(`fresh n` is the n-th generated `uuid4`), then convert the times. -/
def loadRecords (fresh : Nat → String) : Nat → List PRecord → List PRecord
  | _, [] => []
  | n, r :: rs =>
    match r.id with
    | some _ => convertRecordTimes r :: loadRecords fresh n rs
    | none => convertRecordTimes { r with id := some (fresh n) } :: loadRecords fresh (n + 1) rs

/-- State of the persisted file as `load_events` can encounter it. -/
inductive FileState
  | absent
  | empty
  | malformed
  | content (records : List PRecord)

/-- `load_events` from `src/app.py`: an absent or empty file and
malformed JSON all degrade to the empty collection; otherwise every
record of the array is loaded. -/
def load_events (fs : FileState) (fresh : Nat → String) : List PRecord :=
  match fs with
  | FileState.content records => loadRecords fresh 0 records
  | _ => []

/-! ## Helper lemmas: the stable sort of `list_events` -/

theorem insertByStart_mem (x : Event) (l : List Event) (z : Event) :
    z ∈ insertByStart x l ↔ z = x ∨ z ∈ l := by
  induction l with
  | nil => simp [insertByStart]
  | cons y ys ih =>
    by_cases h : sortKey x ≤ sortKey y
    · simp only [insertByStart, if_pos h, List.mem_cons]
    · simp only [insertByStart, if_neg h, List.mem_cons, ih]
      tauto

theorem insertByStart_pairwise (x : Event) (l : List Event)
    (h : l.Pairwise (fun a b => sortKey a ≤ sortKey b)) :
    (insertByStart x l).Pairwise (fun a b => sortKey a ≤ sortKey b) := by
  induction l with
  | nil => simp [insertByStart]
  | cons y ys ih =>
    rcases List.pairwise_cons.mp h with ⟨hy, hys⟩
    by_cases hxy : sortKey x ≤ sortKey y
    · simp only [insertByStart, if_pos hxy]
      refine List.pairwise_cons.mpr ⟨?_, h⟩
      intro z hz
      rcases List.mem_cons.mp hz with rfl | hz
      · exact hxy
      · exact le_trans hxy (hy z hz)
    · simp only [insertByStart, if_neg hxy]
      refine List.pairwise_cons.mpr ⟨?_, ih hys⟩
      intro z hz
      rcases (insertByStart_mem x ys z).mp hz with rfl | hz
      · omega
      · exact hy z hz

theorem insertByStart_perm (x : Event) (l : List Event) :
    List.Perm (insertByStart x l) (x :: l) := by
  induction l with
  | nil => exact List.Perm.refl _
  | cons y ys ih =>
    by_cases h : sortKey x ≤ sortKey y
    · simp only [insertByStart, if_pos h]
      exact List.Perm.refl _
    · simp only [insertByStart, if_neg h]
      exact List.Perm.trans (List.Perm.cons y ih) (List.Perm.swap x y ys)

theorem sortByStart_pairwise (l : List Event) :
    (sortByStart l).Pairwise (fun a b => sortKey a ≤ sortKey b) := by
  induction l with
  | nil => simp [sortByStart]
  | cons x xs ih => exact insertByStart_pairwise x (sortByStart xs) ih

theorem sortByStart_perm (l : List Event) : List.Perm (sortByStart l) l := by
  induction l with
  | nil => exact List.Perm.refl _
  | cons x xs ih =>
    exact List.Perm.trans (insertByStart_perm x (sortByStart xs)) (List.Perm.cons x ih)

theorem insertByStart_filter (x : Event) (l : List Event) (k : Int) :
    (insertByStart x l).filter (fun e => sortKey e == k) =
      if sortKey x = k then x :: l.filter (fun e => sortKey e == k)
      else l.filter (fun e => sortKey e == k) := by
  induction l with
  | nil =>
    by_cases h : sortKey x = k <;> simp [insertByStart, List.filter_cons, h]
  | cons y ys ih =>
    by_cases hxy : sortKey x ≤ sortKey y
    · simp only [insertByStart, if_pos hxy, List.filter_cons]
      by_cases h : sortKey x = k <;> simp [h]
    · simp only [insertByStart, if_neg hxy, List.filter_cons, ih]
      by_cases hy : sortKey y = k
      · have hxk : ¬ sortKey x = k := by omega
        simp [hy, hxk]
      · by_cases hx : sortKey x = k <;> simp [hy, hx]

theorem sortByStart_filter (l : List Event) (k : Int) :
    (sortByStart l).filter (fun e => sortKey e == k) =
      l.filter (fun e => sortKey e == k) := by
  induction l with
  | nil => rfl
  | cons x xs ih =>
    by_cases h : sortKey x = k <;>
      simp [sortByStart, insertByStart_filter, h, List.filter_cons, ih]

/-! ## Helper lemmas: the validator -/

/-- The parsed value the validator produces for a time field, whatever
the field's validity: `some` exactly when the field was supplied as a
string that parses. -/
def parsedTime : Option JVal → Option DateTime
  | some (JVal.str s) => fromisoformat s
  | _ => none

/-- A title field the validator accepts: absent, or a string that is
non-empty after stripping. -/
def validTitleB : Option JVal → Bool
  | none => true
  | some (JVal.str t) => !(pyStrip t == "")
  | some _ => false

/-- A description field the validator accepts: absent or any string. -/
def validDescB : Option JVal → Bool
  | none => true
  | some (JVal.str _) => true
  | some _ => false

/-- A time field supplied as a parseable string, or absent. -/
def validTimeB : Option JVal → Bool
  | none => true
  | some (JVal.str s) => (fromisoformat s).isSome
  | some _ => false

theorem timeFieldStep_snd (v : Option JVal) (a b : String) :
    (timeFieldStep (pyGet v) a b).2 = parsedTime v := by
  rcases v with _ | jv
  · rfl
  · rcases jv with sv | _ | _
    · rcases hfs : fromisoformat sv with _ | t <;>
        simp [timeFieldStep, pyGet, parsedTime, hfs]
    · rfl
    · rfl

theorem validate_parsed_start (d : Payload) (u : Bool) :
    (validate_event_data d u).parsed_start = parsedTime d.start_time :=
  timeFieldStep_snd d.start_time _ _

theorem validate_parsed_end (d : Payload) (u : Bool) :
    (validate_event_data d u).parsed_end = parsedTime d.end_time :=
  timeFieldStep_snd d.end_time _ _

theorem titleErrs_nil (v : Option JVal) (h : validTitleB v = true) :
    titleErrs v = [] := by
  rcases v with _ | jv
  · rfl
  · rcases jv with sv | _ | _ <;> simp_all [validTitleB, titleErrs]

theorem descErrs_nil (v : Option JVal) (h : validDescB v = true) :
    descErrs v = [] := by
  rcases v with _ | jv
  · rfl
  · rcases jv with sv | _ | _ <;> simp_all [validDescB, descErrs]

theorem timeFieldStep_fst_nil (v : Option JVal) (a b : String)
    (h : validTimeB v = true) : (timeFieldStep (pyGet v) a b).1 = [] := by
  rcases v with _ | jv
  · rfl
  · rcases jv with sv | _ | _ <;>
      simp_all [validTimeB, timeFieldStep, pyGet, Option.isSome_iff_exists] <;>
      obtain ⟨t, ht⟩ := h <;> simp [ht]

theorem validate_update_valid (d : Payload)
    (h1 : validTitleB d.title = true) (h2 : validDescB d.description = true)
    (h3 : validTimeB d.start_time = true) (h4 : validTimeB d.end_time = true) :
    validate_event_data d true =
      ⟨true, [], parsedTime d.start_time, parsedTime d.end_time⟩ := by
  simp [validate_event_data, titleErrs_nil _ h1, descErrs_nil _ h2,
    timeFieldStep_fst_nil _ _ _ h3, timeFieldStep_fst_nil _ _ _ h4,
    timeFieldStep_snd]

theorem isEmpty_false_of_mem {α : Type} {x : α} {l : List α} (h : x ∈ l) :
    l.isEmpty = false := by
  cases l
  · cases h
  · rfl

theorem validate_valid_eq_isEmpty (d : Payload) (u : Bool) :
    (validate_event_data d u).valid = (validate_event_data d u).errors.isEmpty := rfl

theorem validate_bad_start (d : Payload) (u : Bool) (s : String)
    (hs : d.start_time = some (JVal.str s)) (hp : fromisoformat s = none) :
    ("Invalid start_time format. Use ISO 8601 (YYYY-MM-DDTHH:MM:SS)." ∈
        (validate_event_data d u).errors) ∧
      (validate_event_data d u).parsed_start = none ∧
      (validate_event_data d u).valid = false := by
  have hstep : timeFieldStep (pyGet d.start_time) ("start_time must be a string.")
      ("Invalid start_time format. Use ISO 8601 (YYYY-MM-DDTHH:MM:SS).") =
      (["Invalid start_time format. Use ISO 8601 (YYYY-MM-DDTHH:MM:SS)."], none) := by
    rw [hs]; simp [pyGet, timeFieldStep, hp]
  have hmem : "Invalid start_time format. Use ISO 8601 (YYYY-MM-DDTHH:MM:SS)." ∈
      (validate_event_data d u).errors := by
    simp [validate_event_data, hstep]
  refine ⟨hmem, ?_, ?_⟩
  · rw [validate_parsed_start, hs]
    simp [parsedTime, hp]
  · rw [validate_valid_eq_isEmpty]
    exact isEmpty_false_of_mem hmem

theorem validate_bad_end (d : Payload) (u : Bool) (s : String)
    (hs : d.end_time = some (JVal.str s)) (hp : fromisoformat s = none) :
    ("Invalid end_time format. Use ISO 8601 (YYYY-MM-DDTHH:MM:SS)." ∈
        (validate_event_data d u).errors) ∧
      (validate_event_data d u).parsed_end = none ∧
      (validate_event_data d u).valid = false := by
  have hstep : timeFieldStep (pyGet d.end_time) ("end_time must be a string.")
      ("Invalid end_time format. Use ISO 8601 (YYYY-MM-DDTHH:MM:SS).") =
      (["Invalid end_time format. Use ISO 8601 (YYYY-MM-DDTHH:MM:SS)."], none) := by
    rw [hs]; simp [pyGet, timeFieldStep, hp]
  have hmem : "Invalid end_time format. Use ISO 8601 (YYYY-MM-DDTHH:MM:SS)." ∈
      (validate_event_data d u).errors := by
    simp [validate_event_data, hstep]
  refine ⟨hmem, ?_, ?_⟩
  · rw [validate_parsed_end, hs]
    simp [parsedTime, hp]
  · rw [validate_valid_eq_isEmpty]
    exact isEmpty_false_of_mem hmem

/-! ## Helper lemmas: the update operation -/

/-- The merged event an update with valid field values produces: each
supplied field replaces the stored one, unsupplied fields are kept. -/
def mergedOf (e : Event) (d : Payload) : Event :=
  let e1 := match d.title with
    | some (JVal.str t) => { e with title := pyStrip t }
    | _ => e
  let e2 := match d.description with
    | some (JVal.str sv) => { e1 with description := pyStrip sv }
    | _ => e1
  let e3 := match parsedTime d.start_time with
    | some ps => { e2 with start_time := ps }
    | none => e2
  match parsedTime d.end_time with
  | some pe => { e3 with end_time := pe }
  | none => e3

theorem applyUpdates_valid (e : Event) (d : Payload)
    (h1 : validTitleB d.title = true) (h2 : validDescB d.description = true) :
    applyUpdates e d (validate_event_data d true) = (mergedOf e d, true) := by
  rcases d with ⟨t, ds, st, et, ex⟩
  rcases t with _ | ⟨ts⟩ | _ | _ <;> rcases ds with _ | ⟨dss⟩ | _ | _ <;>
    simp_all [validTitleB, validDescB, applyUpdates, mergedOf,
      validate_parsed_start, validate_parsed_end, timeFieldStep_snd]

theorem updateScan_found (event_id : String) (d : Payload) (v : VResult)
    (saveOk : Bool) (pre : List Event) (ev : Event) (post : List Event)
    (hpre : ∀ e ∈ pre, e.id ≠ event_id) (hid : ev.id = event_id) :
    updateScan event_id d v saveOk (pre ++ ev :: post) =
      (pre ++ (updateFound d v saveOk ev).1 :: post, (updateFound d v saveOk ev).2) := by
  induction pre with
  | nil => simp [updateScan, hid]
  | cons p ps ih =>
    have hp : p.id ≠ event_id := hpre p (by simp)
    simp [updateScan, hp, ih (fun e he => hpre e (by simp [he]))]

/-! ## Helper lemmas: behavior when the save fails -/

theorem create_save_fail (data : Option Payload) (newId : String) (events : List Event)
    (h : (create_event data newId true events).2.status = 201) :
    create_event data newId false events =
      ((create_event data newId true events).1, serverError) := by
  rcases data with _ | d
  · simp [create_event, badRequest] at h
  · by_cases hf : payloadFalsy d
    · simp [create_event, hf, badRequest] at h
    · rcases hv : (validate_event_data d false).valid with _ | _
      · simp [create_event, hf, hv, badRequest] at h
      · rcases hps : (validate_event_data d false).parsed_start with _ | ps
        · simp [create_event, hf, hv, hps, serverError] at h
        · rcases hpe : (validate_event_data d false).parsed_end with _ | pe
          · simp [create_event, hf, hv, hps, hpe, serverError] at h
          · rcases hge : dtGe ps pe with _ | b
            · simp [create_event, hf, hv, hps, hpe, hge, serverError] at h
            · rcases b with _ | _
              · rcases ht : d.title with _ | jt
                · simp [create_event, hf, hv, hps, hpe, hge, ht, serverError] at h
                · rcases jt with ⟨ts⟩ | _ | _
                  · rcases hd : d.description with _ | jd
                    · simp [create_event, hf, hv, hps, hpe, hge, ht, hd, serverError] at h
                    · rcases jd with ⟨dss⟩ | _ | _
                      · simp [create_event, hf, hv, hps, hpe, hge, ht, hd]
                      · simp [create_event, hf, hv, hps, hpe, hge, ht, hd, serverError] at h
                      · simp [create_event, hf, hv, hps, hpe, hge, ht, hd, serverError] at h
                  · simp [create_event, hf, hv, hps, hpe, hge, ht, serverError] at h
                  · simp [create_event, hf, hv, hps, hpe, hge, ht, serverError] at h
              · simp [create_event, hf, hv, hps, hpe, hge, badRequest] at h

theorem updateScan_cons (event_id : String) (d : Payload) (v : VResult)
    (saveOk : Bool) (e : Event) (rest : List Event) :
    updateScan event_id d v saveOk (e :: rest) =
      if e.id = event_id then
        ((updateFound d v saveOk e).1 :: rest, (updateFound d v saveOk e).2)
      else
        (e :: (updateScan event_id d v saveOk rest).1,
          (updateScan event_id d v saveOk rest).2) := by
  by_cases he : e.id = event_id <;> simp [updateScan, he]

theorem updateFound_save_fail (d : Payload) (v : VResult) (e : Event)
    (h : (updateFound d v true e).2.status = 200) :
    updateFound d v false e = ((updateFound d v true e).1, serverError) := by
  rcases hau : applyUpdates e d v with ⟨e1, ok⟩
  rcases ok with _ | _
  · simp [updateFound, hau, serverError] at h
  · rcases hge : dtGe e1.start_time e1.end_time with _ | b
    · simp [updateFound, hau, hge, serverError] at h
    · rcases b with _ | _
      · simp [updateFound, hau, hge]
      · simp [updateFound, hau, hge, badRequest] at h

theorem updateScan_save_fail (event_id : String) (d : Payload) (v : VResult)
    (l : List Event) (h : (updateScan event_id d v true l).2.status = 200) :
    updateScan event_id d v false l =
      ((updateScan event_id d v true l).1, serverError) := by
  induction l with
  | nil => simp [updateScan, notFound] at h
  | cons e rest ih =>
    by_cases he : e.id = event_id
    · simp only [updateScan_cons, if_pos he] at h ⊢
      simp [updateFound_save_fail d v e h]
    · simp only [updateScan_cons, if_neg he] at h ⊢
      simp [ih h]

theorem update_save_fail (event_id : String) (data : Option Payload)
    (events : List Event)
    (h : (update_event event_id data true events).2.status = 200) :
    update_event event_id data false events =
      ((update_event event_id data true events).1, serverError) := by
  rcases data with _ | d
  · simp [update_event, badRequest] at h
  · by_cases hf : payloadFalsy d
    · simp [update_event, hf, badRequest] at h
    · by_cases hv : (validate_event_data d true).valid
      · simp only [update_event, hf, Bool.false_eq_true, if_false, hv,
          Bool.not_true] at h ⊢
        exact updateScan_save_fail event_id d _ events h
      · simp only [update_event, hf, Bool.false_eq_true, if_false] at h
        rcases hb : (validate_event_data d true).valid with _ | _
        · simp [hb, badRequest] at h
        · exact absurd hb hv

theorem delete_save_fail (event_id : String) (l : List Event)
    (h : (delete_event event_id true l).2.status = 200) :
    delete_event event_id false l =
      ((delete_event event_id true l).1, serverError) := by
  induction l with
  | nil => simp [delete_event, notFound] at h
  | cons e rest ih =>
    by_cases he : e.id = event_id
    · simp [delete_event, he]
    · simp only [delete_event, if_neg he] at h ⊢
      simp_all [ih]

/-! ## Helper lemmas: `fromisoformat` inverts `isoformat` -/

theorem digitVal_digitChar : ∀ k, k < 10 → digitVal (digitChar k) = some k := by decide

theorem isDigit_digitChar : ∀ k, k < 10 → (digitChar k).isDigit = true := by decide

theorem toNat_digitChar : ∀ k, k < 10 → (digitChar k).toNat = 48 + k := by decide

theorem read2_pad2 (n : Nat) (h : n ≤ 99) (r : List Char) :
    read2 (pad2 n ++ r) = some (n, r) := by
  have h1 : n / 10 < 10 := by omega
  have h2 : n % 10 < 10 := by omega
  simp only [pad2, List.cons_append, List.nil_append, read2,
    digitVal_digitChar _ h1, digitVal_digitChar _ h2]
  have : n / 10 * 10 + n % 10 = n := by omega
  rw [this]

theorem parseIsoDate_pads (y mo d : Nat) (hy : y ≤ 9999) (hmo : mo ≤ 99)
    (hd : d ≤ 99) (r : List Char) :
    parseIsoDate (pad4 y ++ '-' :: pad2 mo ++ '-' :: pad2 d ++ r) =
      some (y, mo, d, r) := by
  have h1 : y / 1000 < 10 := by omega
  have h2 : y / 100 % 10 < 10 := by omega
  have h3 : y / 10 % 10 < 10 := by omega
  have h4 : y % 10 < 10 := by omega
  have h5 : mo / 10 < 10 := by omega
  have h6 : mo % 10 < 10 := by omega
  have h7 : d / 10 < 10 := by omega
  have h8 : d % 10 < 10 := by omega
  simp only [pad4, pad2, List.cons_append, List.nil_append, parseIsoDate,
    digitVal_digitChar _ h1, digitVal_digitChar _ h2, digitVal_digitChar _ h3,
    digitVal_digitChar _ h4, digitVal_digitChar _ h5, digitVal_digitChar _ h6,
    digitVal_digitChar _ h7, digitVal_digitChar _ h8]
  have hyy : ((y / 1000 * 10 + y / 100 % 10) * 10 + y / 10 % 10) * 10 + y % 10 = y := by omega
  have hmm : mo / 10 * 10 + mo % 10 = mo := by omega
  have hdd : d / 10 * 10 + d % 10 = d := by omega
  rw [hyy, hmm, hdd]

theorem digitsToNat_pad6 (n : Nat) (h : n ≤ 999999) : digitsToNat (pad6 n) = n := by
  have t1 := toNat_digitChar (n / 100000) (by omega)
  have t2 := toNat_digitChar (n / 10000 % 10) (by omega)
  have t3 := toNat_digitChar (n / 1000 % 10) (by omega)
  have t4 := toNat_digitChar (n / 100 % 10) (by omega)
  have t5 := toNat_digitChar (n / 10 % 10) (by omega)
  have t6 := toNat_digitChar (n % 10) (by omega)
  simp only [digitsToNat, pad6, List.foldl, t1, t2, t3, t4, t5, t6]
  omega

theorem takeWhile_pad6 (n : Nat) (h : n ≤ 999999) :
    (pad6 n).takeWhile Char.isDigit = pad6 n := by
  have t1 := isDigit_digitChar (n / 100000) (by omega)
  have t2 := isDigit_digitChar (n / 10000 % 10) (by omega)
  have t3 := isDigit_digitChar (n / 1000 % 10) (by omega)
  have t4 := isDigit_digitChar (n / 100 % 10) (by omega)
  have t5 := isDigit_digitChar (n / 10 % 10) (by omega)
  have t6 := isDigit_digitChar (n % 10) (by omega)
  simp [pad6, List.takeWhile_cons, t1, t2, t3, t4, t5, t6]

theorem parseIsoTime_hms (h mi s : Nat) (hh : h ≤ 23) (hmi : mi ≤ 59) (hs : s ≤ 59) :
    parseIsoTime (pad2 h ++ ':' :: (pad2 mi ++ ':' :: pad2 s)) =
      some ⟨h, mi, s, 0, none⟩ := by
  have e1 : read2 (pad2 h ++ ':' :: (pad2 mi ++ ':' :: pad2 s)) =
      some (h, ':' :: (pad2 mi ++ ':' :: pad2 s)) := read2_pad2 h (by omega) _
  have e2 : read2 (pad2 mi ++ ':' :: pad2 s) = some (mi, ':' :: pad2 s) :=
    read2_pad2 mi (by omega) _
  have e3 : read2 (pad2 s) = some (s, []) := by
    simpa using read2_pad2 s (by omega) []
  have n1 : ¬ 23 < h := by omega
  have n2 : ¬ 59 < mi := by omega
  have n3 : ¬ 59 < s := by omega
  simp [parseIsoTime, e1, e2, e3, n1, n2, n3, parseTz]

theorem parseIsoTime_hmsf (h mi s us : Nat) (hh : h ≤ 23) (hmi : mi ≤ 59)
    (hs : s ≤ 59) (hus : us ≤ 999999) :
    parseIsoTime (pad2 h ++ ':' :: (pad2 mi ++ ':' :: (pad2 s ++ '.' :: pad6 us))) =
      some ⟨h, mi, s, us, none⟩ := by
  have e1 : read2 (pad2 h ++ ':' :: (pad2 mi ++ ':' :: (pad2 s ++ '.' :: pad6 us))) =
      some (h, ':' :: (pad2 mi ++ ':' :: (pad2 s ++ '.' :: pad6 us))) :=
    read2_pad2 h (by omega) _
  have e2 : read2 (pad2 mi ++ ':' :: (pad2 s ++ '.' :: pad6 us)) =
      some (mi, ':' :: (pad2 s ++ '.' :: pad6 us)) := read2_pad2 mi (by omega) _
  have e3 : read2 (pad2 s ++ '.' :: pad6 us) = some (s, '.' :: pad6 us) :=
    read2_pad2 s (by omega) _
  have n1 : ¬ 23 < h := by omega
  have n2 : ¬ 59 < mi := by omega
  have n3 : ¬ 59 < s := by omega
  have tw := takeWhile_pad6 us hus
  have hlen : (pad6 us).length = 6 := by simp [pad6]
  have hdrop : (pad6 us).drop 6 = [] := by simp [pad6]
  simp [parseIsoTime, e1, e2, e3, n1, n2, n3, tw, hlen, hdrop, parseTz,
    digitsToNat_pad6 us hus]

theorem daysInMonth_le (y m : Nat) : daysInMonth y m ≤ 31 := by
  unfold daysInMonth
  split
  · split <;> omega
  · split <;> omega

theorem fromiso_iso (t : DateTime) (hy1 : 1 ≤ t.year) (hy : t.year ≤ 9999)
    (hmo1 : 1 ≤ t.month) (hmo : t.month ≤ 12) (hd1 : 1 ≤ t.day)
    (hd : t.day ≤ daysInMonth t.year t.month) (hh : t.hour ≤ 23)
    (hmi : t.minute ≤ 59) (hs : t.second ≤ 59) (hus : t.microsecond ≤ 999999)
    (htz : t.tzOffset = none) :
    fromisoformat (isoformatDT t) = some t := by
  obtain ⟨y, mo, d, hr, mi, s, us, off⟩ := t
  simp only at hy1 hy hmo1 hmo hd1 hd hh hmi hs hus htz
  subst htz
  have hdm := daysInMonth_le y mo
  have c1 : ¬ (y < 1 ∨ mo < 1 ∨ 12 < mo ∨ d < 1 ∨ daysInMonth y mo < d) := by
    push_neg
    exact ⟨by omega, by omega, by omega, by omega, hd⟩
  by_cases h0 : us = 0
  · subst h0
    have hcanon : (isoformatDT ⟨y, mo, d, hr, mi, s, 0, none⟩).data =
        pad4 y ++ '-' :: (pad2 mo ++ '-' :: (pad2 d ++ 'T' ::
          (pad2 hr ++ ':' :: (pad2 mi ++ ':' :: pad2 s)))) := by
      simp [isoformatDT, isoChars, offsetChars]
    have hdate : parseIsoDate (pad4 y ++ '-' :: (pad2 mo ++ '-' :: (pad2 d ++ 'T' ::
        (pad2 hr ++ ':' :: (pad2 mi ++ ':' :: pad2 s))))) =
        some (y, mo, d, 'T' :: (pad2 hr ++ ':' :: (pad2 mi ++ ':' :: pad2 s))) :=
      parseIsoDate_pads y mo d (by omega) (by omega) (by omega) _
    have htime := parseIsoTime_hms hr mi s hh hmi hs
    rw [fromisoformat, hcanon]
    simp [hdate, c1, htime]
    omega
  · have hcanon : (isoformatDT ⟨y, mo, d, hr, mi, s, us, none⟩).data =
        pad4 y ++ '-' :: (pad2 mo ++ '-' :: (pad2 d ++ 'T' ::
          (pad2 hr ++ ':' :: (pad2 mi ++ ':' :: (pad2 s ++ '.' :: pad6 us))))) := by
      simp [isoformatDT, isoChars, offsetChars, h0]
    have hdate : parseIsoDate (pad4 y ++ '-' :: (pad2 mo ++ '-' :: (pad2 d ++ 'T' ::
        (pad2 hr ++ ':' :: (pad2 mi ++ ':' :: (pad2 s ++ '.' :: pad6 us)))))) =
        some (y, mo, d, 'T' :: (pad2 hr ++ ':' :: (pad2 mi ++ ':' ::
          (pad2 s ++ '.' :: pad6 us)))) :=
      parseIsoDate_pads y mo d (by omega) (by omega) (by omega) _
    have htime := parseIsoTime_hmsf hr mi s us hh hmi hs hus
    rw [fromisoformat, hcanon]
    simp [hdate, c1, htime]
    omega

/-- A well-formed stored instant: a naive datetime whose fields are in
the ranges Python's `datetime` constructor enforces (year 1–9999, real
calendar day, time-of-day fields in range). -/
def wfDT (t : DateTime) : Prop :=
  1 ≤ t.year ∧ t.year ≤ 9999 ∧ 1 ≤ t.month ∧ t.month ≤ 12 ∧ 1 ≤ t.day ∧
    t.day ≤ daysInMonth t.year t.month ∧ t.hour ≤ 23 ∧ t.minute ≤ 59 ∧
    t.second ≤ 59 ∧ t.microsecond ≤ 999999 ∧ t.tzOffset = none

instance (t : DateTime) : Decidable (wfDT t) := by
  unfold wfDT
  infer_instance

theorem fromiso_iso_wf (t : DateTime) (h : wfDT t) :
    fromisoformat (isoformatDT t) = some t := by
  obtain ⟨h1, h2, h3, h4, h5, h6, h7, h8, h9, h10, h11⟩ := h
  exact fromiso_iso t h1 h2 h3 h4 h5 h6 h7 h8 h9 h10 h11

theorem convert_serialize_record (e : Event) (hs : wfDT e.start_time)
    (he : wfDT e.end_time) :
    convertRecordTimes (serializeRecord (Event.toRecord e)) = Event.toRecord e := by
  simp [Event.toRecord, serializeRecord, serializeTV, convertRecordTimes,
    fromiso_iso_wf _ hs, fromiso_iso_wf _ he]

theorem loadRecords_roundtrip (fresh : Nat → String) (n : Nat) (evs : List Event)
    (h : ∀ e ∈ evs, wfDT e.start_time ∧ wfDT e.end_time) :
    loadRecords fresh n (save_events (evs.map Event.toRecord)) =
      evs.map Event.toRecord := by
  induction evs generalizing n with
  | nil => rfl
  | cons e rest ih =>
    obtain ⟨hs, he⟩ := h e (by simp)
    have hrec := convert_serialize_record e hs he
    have hid : (serializeRecord (Event.toRecord e)).id = some e.id := rfl
    simp only [save_events, List.map_cons, loadRecords, hid, hrec]
    have : loadRecords fresh n (save_events (rest.map Event.toRecord)) =
        rest.map Event.toRecord :=
      ih n (fun x hx => h x (List.mem_cons_of_mem e hx))
    simp only [save_events] at this
    rw [this]

/-! ## Concrete data for the claim scenarios -/

/-- 2024-01-01 09:00:00 (naive). -/
def dt0900 : DateTime := ⟨2024, 1, 1, 9, 0, 0, 0, none⟩

/-- 2024-01-01 10:00:00 (naive). -/
def dt1000 : DateTime := ⟨2024, 1, 1, 10, 0, 0, 0, none⟩

/-- 2024-01-01 11:00:00 (naive). -/
def dt1100 : DateTime := ⟨2024, 1, 1, 11, 0, 0, 0, none⟩

/-- A stored event from 09:00 to 10:00. -/
def evA : Event := ⟨"id1", "A", "d", dt0900, dt1000⟩

/-- Update body supplying only `start_time = 2024-01-01T11:00:00`. -/
def updStart11 : Payload :=
  ⟨none, none, some (JVal.str ("2024-01-01T11:00:00")), none, false⟩

/-- Create body producing `evA` (titled "A", 09:00–10:00). -/
def createA : Payload :=
  ⟨some (JVal.str ("A")), some (JVal.str ("d")),
    some (JVal.str ("2024-01-01T09:00:00")), some (JVal.str ("2024-01-01T10:00:00")), false⟩

/-- The empty JSON object as a request body. -/
def emptyPayload : Payload := ⟨none, none, none, none, false⟩

/-- The §8 scenario body: title "X", times 10:00/09:00, no description. -/
def bodyC3 : Payload :=
  ⟨some (JVal.str ("X")), none, some (JVal.str ("2024-01-01T10:00:00")),
    some (JVal.str ("2024-01-01T09:00:00")), false⟩

/-- Update body supplying only a start_time that fails to parse. -/
def badStartPayload : Payload :=
  ⟨none, none, some (JVal.str ("garbage")), none, false⟩

/-- Whether `p` is a prefix of `l` (over characters). -/
def startsWith : List Char → List Char → Bool
  | [], _ => true
  | _ :: _, [] => false
  | a :: as, b :: bs => a == b && startsWith as bs

/-- Whether `p` occurs as a contiguous substring of `l`. -/
def containsChars (p : List Char) : List Char → Bool
  | [] => startsWith p []
  | l@(_ :: rest) => startsWith p l || containsChars p rest

/-! ## The claims -/

/-- C1: the spec claims that an update whose merged result violates
`start_time < end_time` fails with a validation error *and leaves the
stored event completely unchanged*.  The failure half is true, but the
source applies the merge to the stored event in place *before* the
ordering re-check (src/app.py lines 264–279), so after the rejected
update the stored event's `start_time` has been overwritten with the
new 11:00 value: the stored event differs from its prior value. -/
theorem c1_rejected_update_mutates_event :
    update_event ("id1") (some updStart11) true [evA] =
      ([⟨"id1", "A", "d", dt1100, dt1000⟩],
        badRequest ("Updated start time must be strictly before updated end time.")) ∧
      (update_event ("id1") (some updStart11) true [evA]).1 ≠ [evA] := by
  constructor
  · decide
  · decide

/-- C2: the spec claims every reachable collection state satisfies
`start_time < end_time` for all events.  Reachable counterexample:
create an event 09:00–10:00, then send an update with only
`start_time = 11:00`; the update is rejected with 400, but because the
mutation precedes the re-check the resulting in-memory collection holds
an event with `start_time = 11:00 ≥ end_time = 10:00`, which a
subsequent `list` then returns. -/
theorem c2_invariant_violated_in_reachable_state :
    (update_event ("id1") (some updStart11) true
        (create_event (some createA) "id1" true []).1).1 =
      [⟨"id1", "A", "d", dt1100, dt1000⟩] ∧
      dtGe dt1100 dt1000 = some true ∧
      (list_events [⟨"id1", "A", "d", dt1100, dt1000⟩]).2.events =
        some [⟨"id1", "A", "d", "2024-01-01T11:00:00", "2024-01-01T10:00:00"⟩] := by
  refine ⟨?_, ?_, ?_⟩
  · decide
  · decide
  · decide

/-- C3 counterexample: for the §8 scenario body (no `description`), the
response is 400 but its message is `Missing required field:
'description'` — create mode requires `description`, so validation
fails before the ordering check is reached, and the message does not
mention that the start time must precede (or be before) the end time. -/
theorem c3_counterexample_message_is_missing_field :
    create_event (some bodyC3) "nid" true [] =
      ([], badRequest ("Missing required field: 'description'")) ∧
      containsChars ("precede".data) ("Missing required field: 'description'".data) = false ∧
      containsChars ("before".data) ("Missing required field: 'description'".data) = false := by
  refine ⟨?_, ?_, ?_⟩
  · decide
  · decide
  · decide

/-- C3 amended: that request yields 400 with body
`{error: "Bad Request", message: "Missing required field: 'description'"}`
(the ordering message would only appear once all required fields are
present). -/
theorem c3_amended_missing_description :
    create_event (some bodyC3) "nid" true [] =
      ([], ⟨400, some ("Bad Request"), some ("Missing required field: 'description'"),
        none, none⟩) := by
  decide

/-- C4 counterexample: the claim says a date-only string such as
`2024-01-01` fails the time parse; in fact `datetime.fromisoformat`
accepts date-only input and returns midnight of that date, and the
validator accepts it as a valid `start_time` with no error. -/
theorem c4_counterexample_date_only_parses :
    fromisoformat ("2024-01-01") = some ⟨2024, 1, 1, 0, 0, 0, 0, none⟩ ∧
      validate_event_data ⟨none, none, some (JVal.str ("2024-01-01")), none, false⟩ true =
        ⟨true, [], some ⟨2024, 1, 1, 0, 0, 0, 0, none⟩, none⟩ := by
  constructor
  · decide
  · decide

/-- C4 amended: the parse accepts exactly `fromisoformat`'s grammar
(`YYYY-MM-DD` optionally followed by a separator and
`HH[:MM[:SS[.fff[fff]]]]` and an optional offset) — in particular a
date-only string parses successfully to midnight of that date; whenever
a supplied time string is outside that grammar, validation fails with
an error message naming the offending field. -/
theorem c4_amended_parse_errors_name_field :
    (∀ (d : Payload) (u : Bool) (s : String), d.start_time = some (JVal.str s) →
      fromisoformat s = none →
      ("Invalid start_time format. Use ISO 8601 (YYYY-MM-DDTHH:MM:SS)." ∈
          (validate_event_data d u).errors) ∧
        (validate_event_data d u).valid = false) ∧
      (∀ (d : Payload) (u : Bool) (s : String), d.end_time = some (JVal.str s) →
        fromisoformat s = none →
        ("Invalid end_time format. Use ISO 8601 (YYYY-MM-DDTHH:MM:SS)." ∈
            (validate_event_data d u).errors) ∧
          (validate_event_data d u).valid = false) ∧
      fromisoformat ("2024-01-01") = some ⟨2024, 1, 1, 0, 0, 0, 0, none⟩ :=
  ⟨fun d u s hs hp =>
      ⟨(validate_bad_start d u s hs hp).1, (validate_bad_start d u s hs hp).2.2⟩,
    fun d u s hs hp =>
      ⟨(validate_bad_end d u s hs hp).1, (validate_bad_end d u s hs hp).2.2⟩,
    by decide⟩

/-- C4 witness: the amended statement applied to the unparsable string
`garbage` supplied as `start_time`. -/
theorem c4_witness :
    ("Invalid start_time format. Use ISO 8601 (YYYY-MM-DDTHH:MM:SS)." ∈
        (validate_event_data badStartPayload true).errors) ∧
      (validate_event_data badStartPayload true).valid = false :=
  c4_amended_parse_errors_name_field.1 badStartPayload true ("garbage") rfl (by decide)

/-- C5 counterexample: the claim says the normalized value left by a
failed time parse is distinct from the value for a field that was not
supplied; in fact both are Python `None`: the validator returns the
same `none` parsed value for the unparsable `start_time` and for an
absent one. -/
theorem c5_counterexample_same_none :
    (validate_event_data badStartPayload true).parsed_start =
        (validate_event_data emptyPayload true).parsed_start ∧
      (validate_event_data badStartPayload true).parsed_start = none := by
  constructor
  · decide
  · decide

/-- C5 amended: a supplied `start_time`/`end_time` that fails to parse
yields a field-specific error, overall invalidity, and a `none` parsed
value — the same `none` as when the field was not supplied; callers
distinguish the two cases by the error list and validity flag, not by
the normalized value. -/
theorem c5_amended_failed_parse_indistinct_value :
    (∀ (d : Payload) (u : Bool) (s : String), d.start_time = some (JVal.str s) →
      fromisoformat s = none →
      (validate_event_data d u).parsed_start = none ∧
        ("Invalid start_time format. Use ISO 8601 (YYYY-MM-DDTHH:MM:SS)." ∈
            (validate_event_data d u).errors) ∧
        (validate_event_data d u).valid = false) ∧
      (∀ (d : Payload) (u : Bool), d.start_time = none →
        (validate_event_data d u).parsed_start = none ∧
          (validate_event_data d u).parsed_start =
            (validate_event_data ⟨d.title, d.description, none, d.end_time, d.extra⟩ u).parsed_start) :=
  ⟨fun d u s hs hp =>
      ⟨(validate_bad_start d u s hs hp).2.1, (validate_bad_start d u s hs hp).1,
        (validate_bad_start d u s hs hp).2.2⟩,
    fun d u hs => by
      rw [validate_parsed_start, validate_parsed_start, hs]
      exact ⟨rfl, rfl⟩⟩

/-- C5 witness: the amended statement applied to the unparsable string
`garbage` and to the empty body. -/
theorem c5_witness :
    (validate_event_data badStartPayload true).parsed_start = none ∧
      (validate_event_data emptyPayload true).parsed_start = none :=
  ⟨(c5_amended_failed_parse_indistinct_value.1 badStartPayload true ("garbage") rfl (by decide)).1,
    (c5_amended_failed_parse_indistinct_value.2 emptyPayload true rfl).1⟩

/-- C6 counterexample: the claim includes the empty subset (an empty
JSON object), but the handler's `if not data` check treats the empty
dict as a missing body, so `PUT` with `{}` on an existing id returns
400 ("Request body must be JSON."), not 200.  Moreover a subset whose
values are individually valid can still fail: supplying only the
parseable `start_time = 11:00` to an event ending at 10:00 yields 400
because the merged result violates the ordering invariant. -/
theorem c6_counterexample_empty_body_rejected :
    update_event ("id1") (some emptyPayload) true [evA] =
      ([evA], badRequest ("Request body must be JSON.")) ∧
      (update_event ("id1") (some updStart11) true [evA]).2.status = 400 := by
  constructor
  · decide
  · decide

/-- C6 amended: for an existing event id, an update whose body supplies
a *non-empty* subset of the four fields with valid values *and whose
merged result satisfies the ordering invariant* succeeds with 200,
storing the merge of the supplied fields onto the event (unsupplied
fields keep their prior values); the empty JSON object is rejected with
400 by the falsy-body check. -/
theorem c6_amended_nonempty_valid_update_merges (d : Payload) (event_id : String)
    (pre post : List Event) (ev : Event)
    (h1 : validTitleB d.title = true) (h2 : validDescB d.description = true)
    (h3 : validTimeB d.start_time = true) (h4 : validTimeB d.end_time = true)
    (hne : d.title.isSome ∨ d.description.isSome ∨ d.start_time.isSome ∨ d.end_time.isSome)
    (_hex : d.extra = false)
    (hpre : ∀ e ∈ pre, e.id ≠ event_id) (hid : ev.id = event_id)
    (hord : dtGe (mergedOf ev d).start_time (mergedOf ev d).end_time = some false) :
    update_event event_id (some d) true (pre ++ ev :: post) =
      (pre ++ mergedOf ev d :: post,
        ⟨200, none, some ("Event updated successfully"),
          some (eventWire (mergedOf ev d)), none⟩) := by
  have hfal : payloadFalsy d = false := by
    unfold payloadFalsy
    rcases hne with h | h | h | h <;>
      rcases Option.isSome_iff_exists.mp h with ⟨v, hv⟩ <;>
      simp [hv]
  have hv := validate_update_valid d h1 h2 h3 h4
  have happ := applyUpdates_valid ev d h1 h2
  rw [hv] at happ
  simp only [update_event, hfal, Bool.false_eq_true, if_false, hv]
  rw [updateScan_found event_id d _ true pre ev post hpre hid]
  simp [updateFound, happ, hord]

/-- C6 witness: updating only the title of `evA` succeeds with 200 and
replaces just the title. -/
theorem c6_witness :
    update_event ("id1") (some ⟨some (JVal.str ("B")), none, none, none, false⟩) true [evA] =
      ([mergedOf evA ⟨some (JVal.str ("B")), none, none, none, false⟩],
        ⟨200, none, some ("Event updated successfully"),
          some (eventWire (mergedOf evA ⟨some (JVal.str ("B")), none, none, none, false⟩)),
          none⟩) := by
  have := c6_amended_nonempty_valid_update_merges
    ⟨some (JVal.str ("B")), none, none, none, false⟩ ("id1") [] [] evA
    (by decide) (by decide) (by decide) (by decide) (Or.inl (by decide)) rfl
    (fun e he => absurd he (List.not_mem_nil e)) (by decide) (by decide)
  simpa using this

/-- An event tied with `evA` on `start_time` (inserted after it). -/
def evB : Event := ⟨"id2", "B", "e", dt0900, dt1100⟩

/-- An event starting later than the others. -/
def evC : Event := ⟨"id3", "C", "f", dt1000, dt1100⟩

/-- C7: on any collection of events whose start times share one
awareness (all naive, as the spec's instants are), `list` leaves the
collection unchanged, answers 200, and returns exactly the collection
stably sorted by ascending `start_time`: the output is sorted, is a
permutation of the collection, and events with equal start keys appear
in their original (insertion) order. -/
theorem c7_list_sorted_stable (events : List Event)
    (hsame : sameAwareness events = true) :
    (list_events events).1 = events ∧
      (list_events events).2.status = 200 ∧
      (list_events events).2.events = some ((sortByStart events).map eventWire) ∧
      (sortByStart events).Pairwise (fun a b => sortKey a ≤ sortKey b) ∧
      List.Perm (sortByStart events) events ∧
      (∀ k : Int, (sortByStart events).filter (fun e => sortKey e == k) =
        events.filter (fun e => sortKey e == k)) := by
  refine ⟨?_, ?_, ?_, sortByStart_pairwise events, sortByStart_perm events,
    fun k => sortByStart_filter events k⟩ <;> simp [list_events, hsame]

/-- C7 witness: a concrete collection with a start-time tie (`evC`
inserted first, then `evA` and `evB` tied at 09:00). -/
theorem c7_witness :
    (list_events [evC, evA, evB]).1 = [evC, evA, evB] ∧
      (list_events [evC, evA, evB]).2.status = 200 ∧
      (list_events [evC, evA, evB]).2.events =
        some ((sortByStart [evC, evA, evB]).map eventWire) ∧
      (sortByStart [evC, evA, evB]).Pairwise (fun a b => sortKey a ≤ sortKey b) ∧
      List.Perm (sortByStart [evC, evA, evB]) [evC, evA, evB] ∧
      (∀ k : Int, (sortByStart [evC, evA, evB]).filter (fun e => sortKey e == k) =
        [evC, evA, evB].filter (fun e => sortKey e == k)) :=
  c7_list_sorted_stable [evC, evA, evB] (by decide)

/-- C8: loading the file written by save reproduces the collection
exactly, for every collection of well-formed events (string id/title/
description, instant-valued times with valid calendar fields): each
instant is rendered by `isoformat` and parsed back by `fromisoformat`
to the identical value, ids are present so none are regenerated, and no
record is dropped or reordered. -/
theorem c8_load_save_roundtrip (evs : List Event) (fresh : Nat → String)
    (h : ∀ e ∈ evs, wfDT e.start_time ∧ wfDT e.end_time) :
    load_events (FileState.content (save_events (evs.map Event.toRecord))) fresh =
      evs.map Event.toRecord :=
  loadRecords_roundtrip fresh 0 evs h

/-- C8 witness: the two-event collection `[evA, evB]` survives the
save/load round trip unchanged. -/
theorem c8_witness :
    load_events (FileState.content (save_events ([evA, evB].map Event.toRecord)))
        (fun n => toString n) =
      [evA, evB].map Event.toRecord :=
  c8_load_save_roundtrip [evA, evB] (fun n => toString n) (by decide)

/-- C9: when a mutating operation has applied its in-memory change and
the subsequent save fails, the response is the generic 500 body (fixed
category "Internal Server Error" and fixed message — no detail of the
failure leaks), while the in-memory collection is exactly the one the
successful-save run would have produced: the store does not roll back,
so subsequent reads in the same process observe the mutated collection. -/
theorem c9_save_failure_kept_in_memory :
    (∀ (data : Option Payload) (newId : String) (events : List Event),
      (create_event data newId true events).2.status = 201 →
      create_event data newId false events =
        ((create_event data newId true events).1, serverError)) ∧
      (∀ (event_id : String) (data : Option Payload) (events : List Event),
        (update_event event_id data true events).2.status = 200 →
        update_event event_id data false events =
          ((update_event event_id data true events).1, serverError)) ∧
      (∀ (event_id : String) (events : List Event),
        (delete_event event_id true events).2.status = 200 →
        delete_event event_id false events =
          ((delete_event event_id true events).1, serverError)) :=
  ⟨create_save_fail, update_save_fail, delete_save_fail⟩

/-- C9 witness: concrete create/update/delete runs whose save fails —
each mutates the collection and answers the generic 500 body. -/
theorem c9_witness :
    create_event (some createA) "id1" false [] = ([evA], serverError) ∧
      update_event ("id1") (some ⟨some (JVal.str ("B")), none, none, none, false⟩) false [evA] =
        ([⟨"id1", "B", "d", dt0900, dt1000⟩], serverError) ∧
      delete_event ("id1") false [evA] = ([], serverError) := by
  refine ⟨?_, ?_, ?_⟩
  · rw [c9_save_failure_kept_in_memory.1 (some createA) "id1" [] (by decide)]
    decide
  · rw [c9_save_failure_kept_in_memory.2.1 ("id1")
      (some ⟨some (JVal.str ("B")), none, none, none, false⟩) [evA] (by decide)]
    decide
  · rw [c9_save_failure_kept_in_memory.2.2 ("id1") [evA] (by decide)]
    decide

/-- A persisted record whose `start_time` parses but whose `end_time`
does not. -/
def badEndRecord : PRecord :=
  ⟨some ("e1"), "t", "d", TimeVal.str ("2024-01-01T09:00:00"), TimeVal.str ("garbage")⟩

/-- C10 counterexample: the claim says a record with an unparsable
timestamp is retained with *its timestamp fields left as the original
raw string values*; but the conversion is sequential (start first), so
for a record whose `start_time` parses and whose `end_time` does not,
load retains the record with `start_time` already *converted to a
datetime* and only `end_time` left raw. -/
theorem c10_counterexample_start_normalized :
    load_events (FileState.content [badEndRecord]) (fun n => toString n) =
      [⟨some ("e1"), "t", "d", TimeVal.dt dt0900, TimeVal.str ("garbage")⟩] := by
  decide

/-- C10 amended: load never raises and retains every record of a parsed
array; timestamp conversion is sequential (`start_time` first) and
stops at the first failure: if `start_time` fails to parse both fields
keep their raw strings, if only `end_time` fails the record keeps a
parsed `start_time` and the raw `end_time` string, and if both parse
both fields hold parsed instants. -/
theorem c10_amended_sequential_conversion :
    (∀ (r : PRecord) (s1 : String), r.start_time = TimeVal.str s1 →
      fromisoformat s1 = none → convertRecordTimes r = r) ∧
      (∀ (r : PRecord) (s1 s2 : String) (t1 : DateTime),
        r.start_time = TimeVal.str s1 → r.end_time = TimeVal.str s2 →
        fromisoformat s1 = some t1 → fromisoformat s2 = none →
        convertRecordTimes r = { r with start_time := TimeVal.dt t1 }) ∧
      (∀ (r : PRecord) (s1 s2 : String) (t1 t2 : DateTime),
        r.start_time = TimeVal.str s1 → r.end_time = TimeVal.str s2 →
        fromisoformat s1 = some t1 → fromisoformat s2 = some t2 →
        convertRecordTimes r =
          { r with start_time := TimeVal.dt t1, end_time := TimeVal.dt t2 }) ∧
      (∀ (r : PRecord) (rs : List PRecord) (fresh : Nat → String) (i : String),
        r.id = some i →
        load_events (FileState.content (r :: rs)) fresh =
          convertRecordTimes r :: loadRecords fresh 0 rs) := by
  refine ⟨?_, ?_, ?_, ?_⟩
  · intro r s1 hs hp
    simp [convertRecordTimes, hs, hp]
  · intro r s1 s2 t1 hs he hp1 hp2
    simp [convertRecordTimes, hs, he, hp1, hp2]
  · intro r s1 s2 t1 t2 hs he hp1 hp2
    simp [convertRecordTimes, hs, he, hp1, hp2]
  · intro r rs fresh i hid
    simp [load_events, loadRecords, hid]

/-- C10 witness: the amended statement applied to `badEndRecord`. -/
theorem c10_witness :
    convertRecordTimes badEndRecord = { badEndRecord with start_time := TimeVal.dt dt0900 } :=
  c10_amended_sequential_conversion.2.1 badEndRecord ("2024-01-01T09:00:00") ("garbage") dt0900
    rfl rfl (by decide) (by decide)
